import Mathlib

/-!
Verification of the dual-AI pipeline and file-operation subsystem of
`powerfulAiAssitantGG` (files `ai_assistant.py`, `file_manager.py`).

Python strings are modelled as `List Char`; Python string methods
(`split`, `strip`, `startswith`, `in`, `replace`, `rstrip`) are given
executable models below.  Dictionaries returned by the Python code are
modelled as structures whose `Option` fields record key presence.
Index accesses (`xs[1]`) are modelled with `List.get?`, so a would-be
`IndexError` surfaces as `none` and the parser returns `Option`.
-/

/-- Coerce a Lean string literal to the `List Char` representation used
throughout this development. -/
def str (s : String) : List Char := s.data

/-- Whitespace characters stripped by Python's `str.strip()` (ASCII subset). -/
def pyIsSpace (c : Char) : Bool :=
  c == ' ' || c == '\t' || c == '\n' || c == '\r' || c == '\x0b' || c == '\x0c'

/-- Model of Python `s.strip()`: remove leading and trailing whitespace. -/
def pyStrip (s : List Char) : List Char :=
  ((s.dropWhile pyIsSpace).reverse.dropWhile pyIsSpace).reverse

/-- Model of Python `s.rstrip('\n')`: remove all trailing newline characters. -/
def rstripNewlines (s : List Char) : List Char :=
  (s.reverse.dropWhile (fun c => c == '\n')).reverse

/-- Model of Python `s.startswith(p)`. -/
def pyStartswith (s p : List Char) : Bool := decide (p <+: s)

/-- Model of Python substring containment `sub in s`. -/
def pyIn (sub s : List Char) : Bool := decide (sub <:+: s)

/-- Index of the first occurrence of `sep` in `s` (leftmost match), as used
by Python `str.split`. -/
def findSubstr (sep : List Char) : List Char → Option Nat
  | [] => if sep = [] then some 0 else none
  | c :: cs => if sep <+: c :: cs then some 0 else (findSubstr sep cs).map (· + 1)

/-- Fuelled worker for `pySplit`; fuel bounds the number of separator
occurrences consumed (the top-level wrapper always supplies enough). -/
def pySplitFuel (sep : List Char) : Nat → List Char → List (List Char)
  | 0, s => [s]
  | fuel + 1, s =>
    match findSubstr sep s with
    | none => [s]
    | some i => s.take i :: pySplitFuel sep fuel (s.drop (i + sep.length))

/-- Model of Python `s.split(sep)` for non-empty `sep`: split at every
non-overlapping occurrence of `sep`, scanning left to right. -/
def pySplit (sep s : List Char) : List (List Char) :=
  pySplitFuel sep (s.length + 1) s

/-- Model of Python `l[-1]` on a list of strings (call sites guarantee
nonemptiness, since `split` never returns an empty list). -/
def pyLast (l : List (List Char)) : List Char := l.getLastD []

/-- Model of Python `s.replace("", new)`: `new` is inserted before every
character and at the end. -/
def replEmpty (new : List Char) : List Char → List Char
  | [] => new
  | c :: cs => new ++ c :: replEmpty new cs

/-- Fuelled worker for `pyReplace` (left-to-right, non-overlapping). -/
def pyReplaceFuel (old new : List Char) : Nat → List Char → List Char
  | 0, s => s
  | _ + 1, [] => []
  | fuel + 1, c :: cs =>
    if old <+: c :: cs then
      new ++ pyReplaceFuel old new fuel (List.drop old.length (c :: cs))
    else
      c :: pyReplaceFuel old new fuel cs

/-- Model of Python `s.replace(old, new)`: replace every non-overlapping
occurrence of `old`, scanning left to right. -/
def pyReplace (s old new : List Char) : List Char :=
  if old = [] then replEmpty new s
  else pyReplaceFuel old new (s.length + 1) s

/-- Model of Python `len(s.splitlines())` for contents without carriage
returns: number of newline-terminated or final partial lines. -/
def pySplitlinesCount (s : List Char) : Nat :=
  if s = [] then 0
  else s.count '\n' + (if s.getLast? = some '\n' then 0 else 1)

/-- Model of Python `s.lower()` (ASCII). -/
def pyLower (s : List Char) : List Char := s.map Char.toLower

-- Basic facts about the string primitives.

theorem pyStartswith_iff {s p : List Char} : pyStartswith s p = true ↔ p <+: s := by
  simp [pyStartswith]

theorem pyIn_iff {sub s : List Char} : pyIn sub s = true ↔ sub <:+: s := by
  simp [pyIn]

theorem findSubstr_isSome_of_contains {sep s : List Char} (h : sep <:+: s) :
    (findSubstr sep s).isSome = true := by
  induction s with
  | nil =>
    rcases h with ⟨u, v, huv⟩
    have : sep = [] := by
      have := List.append_eq_nil.mp huv
      have := List.append_eq_nil.mp this.1
      exact this.2
    simp [findSubstr, this]
  | cons c cs ih =>
    rcases List.infix_cons_iff.mp h with hpre | hinf
    · simp [findSubstr, hpre]
    · by_cases hp : sep <+: c :: cs
      · simp [findSubstr, hp]
      · simp [findSubstr, hp, ih hinf]

theorem pySplitFuel_ne_nil (sep : List Char) (fuel : Nat) (s : List Char) :
    pySplitFuel sep fuel s ≠ [] := by
  cases fuel with
  | zero => simp [pySplitFuel]
  | succ n =>
    cases h : findSubstr sep s with
    | none => simp [pySplitFuel, h]
    | some i => simp [pySplitFuel, h]

theorem pySplit_ne_nil (sep s : List Char) : pySplit sep s ≠ [] :=
  pySplitFuel_ne_nil sep (s.length + 1) s

theorem pySplit_get?_zero_isSome (sep s : List Char) :
    ((pySplit sep s).get? 0).isSome = true := by
  cases h : pySplit sep s with
  | nil => exact absurd h (pySplit_ne_nil sep s)
  | cons a l => simp

theorem pySplit_length_ge_two_of_found {sep s : List Char}
    (h : (findSubstr sep s).isSome = true) : 2 ≤ (pySplit sep s).length := by
  rcases Option.isSome_iff_exists.mp h with ⟨i, hi⟩
  unfold pySplit pySplitFuel
  rw [hi]
  have := pySplitFuel_ne_nil sep s.length (s.drop (i + sep.length))
  cases hrec : pySplitFuel sep s.length (s.drop (i + sep.length)) with
  | nil => exact absurd hrec this
  | cons a l => simp [hrec]

theorem pySplit_get?_one_isSome_of_contains {sep s : List Char} (h : sep <:+: s) :
    ((pySplit sep s).get? 1).isSome = true := by
  have h2 := pySplit_length_ge_two_of_found (findSubstr_isSome_of_contains h)
  rw [List.get?_eq_getElem?]
  exact Option.isSome_iff_exists.mpr (by
    rcases List.getElem?_eq_some_iff.mpr ⟨h2, rfl⟩ with h'
    exact ⟨_, h'⟩)

/-!
Data model.  Python result dictionaries are modelled as structures whose
`Option` fields record which keys are present in the dictionary.
-/

/-- Result dictionary of one generation-client wrapper call
(`_query_chatgpt_as_processor` / `_query_gemini_with_processed_input`):
possible keys are `content`, `error`, `timing`, `model`. -/
structure ApiResult where
  content : Option (List Char)
  error : Option (List Char)
  timing : Option Nat
  model : Option (List Char)
deriving DecidableEq, Repr

/-- Outcome of the external OpenAI chat-completions call made inside
`_query_chatgpt_as_processor`: either a response content or a raised
exception message. -/
inductive ChatGPTCall where
  | success (content : List Char)
  | failure (errMsg : List Char)
deriving DecidableEq, Repr

/-- Outcome of the external Gemini `generate_content` call made inside
`_query_gemini_with_processed_input`: a response whose `text` may be
missing (`None`), or a raised exception message. -/
inductive GeminiCall where
  | success (text : Option (List Char))
  | failure (errMsg : List Char)
deriving DecidableEq, Repr

/-- Model of `_query_chatgpt_as_processor` (ai_assistant.py lines 85-155).
`clientInitialized` models `self.openai_client is not None`; `call` is the
outcome of the external API call; `elapsed` is the measured wall time. -/
def query_chatgpt_as_processor (clientInitialized : Bool) (call : ChatGPTCall)
    (elapsed : Nat) : ApiResult :=
  if clientInitialized = false then
    { content := none, error := some (str "OpenAI client not initialized"),
      timing := none, model := none }
  else
    match call with
    | .success content =>
      { content := some content, error := none, timing := some elapsed,
        model := some (str "gpt-4o") }
    | .failure e =>
      { content := none, error := some (str "ChatGPT API error: " ++ e),
        timing := some elapsed, model := none }

/-- Model of the delimiter extraction inlined in
`_query_gemini_with_processed_input` (ai_assistant.py lines 174-178):
if the marker occurs in `processed_query`, take everything after its last
scanned occurrence (`split(...)[-1]`) and strip it; otherwise use the full
`processed_query`. -/
def extractGeminiPrompt (processed_query : List Char) : List Char :=
  if pyIn (str "---PROMPT FOR GEMINI---") processed_query then
    pyStrip (pyLast (pySplit (str "---PROMPT FOR GEMINI---") processed_query))
  else
    processed_query

/-- Model of `_query_gemini_with_processed_input` (ai_assistant.py lines
157-209).  `callF` is the external Gemini client as a function of the
prompt actually sent to it (so the theorems can observe that prompt). -/
def query_gemini_with_processed_input (clientInitialized : Bool)
    (callF : List Char → GeminiCall) (elapsed : Nat)
    (original_query processed_query : List Char) : ApiResult :=
  if clientInitialized = false then
    { content := none, error := some (str "Gemini client not initialized"),
      timing := none, model := none }
  else
    let gemini_prompt := extractGeminiPrompt processed_query
    match callF gemini_prompt with
    | .success text =>
      let content := match text with
        | some t => if t = [] then str "No response generated" else t
        | none => str "No response generated"
      { content := some content, error := none, timing := some elapsed,
        model := some (str "gemini-2.5-flash") }
    | .failure e =>
      { content := none, error := some (str "Gemini API error: " ++ e),
        timing := some elapsed, model := none }

/-- Model of `query_both` (ai_assistant.py lines 59-83), parameterized over
the two stage wrappers it invokes on `self`: run the processor; if its
result dictionary contains the `error` key, return it paired with the
synthetic skipped result without consulting the responder; otherwise run
the responder on the original query and the processor's content
(`.get("content", "")`). -/
def query_both (processor : List Char → ApiResult)
    (responder : List Char → List Char → ApiResult)
    (query : List Char) : ApiResult × ApiResult :=
  let chatgpt_result := processor query
  if chatgpt_result.error.isSome then
    (chatgpt_result,
     { content := none, error := some (str "Skipped due to ChatGPT error"),
       timing := none, model := none })
  else
    (chatgpt_result, responder query (chatgpt_result.content.getD []))

/-- Model of `query_chatgpt_only` (ai_assistant.py lines 211-213). -/
def query_chatgpt_only (clientInitialized : Bool) (call : ChatGPTCall)
    (elapsed : Nat) : ApiResult :=
  query_chatgpt_as_processor clientInitialized call elapsed

/-- Model of `query_gemini_only` (ai_assistant.py lines 215-217): the raw
user query is passed both as `original_query` and as `processed_query`. -/
def query_gemini_only (clientInitialized : Bool)
    (callF : List Char → GeminiCall) (elapsed : Nat)
    (query : List Char) : ApiResult :=
  query_gemini_with_processed_input clientInitialized callF elapsed query query

/-!
Operation-DSL parser (`_parse_file_operations`, ai_assistant.py lines
334-403) and operation executor (`_execute_file_operation`, lines 405-453)
with the file-manager primitives they call (file_manager.py).
-/

/-- Parsed file operation, the tagged union of the dictionaries appended
by `_parse_file_operations`. -/
inductive FileOperation where
  | create (file_path : List Char) (content : List Char)
  | modifyAppend (file_path : List Char) (content : List Char)
  | modifyReplace (file_path : List Char) (search : List Char) (replace : List Char)
deriving DecidableEq, Repr

/-- Model of the attribute-extraction idiom
`line.split(sep)[1].split('"')[0]` used by `_parse_file_operations`; the
index accesses are `Option`-valued. -/
def extractAttr (sep line : List Char) : Option (List Char) :=
  match (pySplit sep line).get? 1 with
  | none => none
  | some after => (pySplit (str "\"") after).get? 0

/-- Model of the inner capture loops of `_parse_file_operations` (lines
350-352 and 382-384): accumulate raw lines (each plus a newline) until a
line whose stripped content starts with `close`; return the buffer and the
remaining lines beginning with the closing line (or `[]` if none found). -/
def captureUntil (close : List Char) : List (List Char) → List Char × List (List Char)
  | [] => ([], [])
  | l :: rest =>
    if pyStartswith (pyStrip l) close then ([], l :: rest)
    else
      let r := captureUntil close rest
      (l ++ '\n' :: r.1, r.2)

/-- Fuelled worker for the line scan of `_parse_file_operations`; the fuel
only bounds recursion depth (each step consumes at least one line, so the
wrapper's `length + 1` fuel is always sufficient). -/
def parseLinesFuel : Nat → List (List Char) → Option (List FileOperation)
  | _, [] => some []
  | 0, _ :: _ => none
  | fuel + 1, l :: rest =>
    let line := pyStrip l
    if pyStartswith line (str "<CREATE file=\"") then
      match extractAttr (str "file=\"") line with
      | none => none
      | some file_path =>
        let cap := captureUntil (str "</CREATE>") rest
        match parseLinesFuel fuel (cap.2.drop 1) with
        | none => none
        | some ops =>
          some (FileOperation.create file_path (rstripNewlines cap.1) :: ops)
    else if pyStartswith line (str "<MODIFY file=\"") then
      match (pySplit (str "\"") line).get? 1 with
      | none => none
      | some file_path =>
        let operationTypeO :=
          if pyIn (str "operation=\"") line then extractAttr (str "operation=\"") line
          else some (str "append")
        let searchTextO :=
          if pyIn (str "search=\"") line then extractAttr (str "search=\"") line
          else some ([] : List Char)
        let replaceTextO :=
          if pyIn (str "with=\"") line then extractAttr (str "with=\"") line
          else some ([] : List Char)
        match operationTypeO, searchTextO, replaceTextO with
        | some operation_type, some search_text, some replace_text =>
          if operation_type = str "append" then
            let cap := captureUntil (str "</MODIFY>") rest
            match parseLinesFuel fuel (cap.2.drop 1) with
            | none => none
            | some ops =>
              some (FileOperation.modifyAppend file_path (rstripNewlines cap.1) :: ops)
          else if operation_type = str "replace" then
            match parseLinesFuel fuel rest with
            | none => none
            | some ops =>
              some (FileOperation.modifyReplace file_path search_text replace_text :: ops)
          else
            parseLinesFuel fuel rest
        | _, _, _ => none
    else
      parseLinesFuel fuel rest

/-- Scan a list of lines with sufficient fuel. -/
def parseLines (lines : List (List Char)) : Option (List FileOperation) :=
  parseLinesFuel (lines.length + 1) lines

/-- Model of `_parse_file_operations` (ai_assistant.py lines 334-403):
split the content on newlines and scan; `none` models an uncaught
`IndexError` escaping the method. -/
def parse_file_operations (content : List Char) : Option (List FileOperation) :=
  parseLines (pySplit (str "\n") content)

/-- Filesystem contents under the project root, modelling the nominal
(error-free) behavior of the Content Store: an association list from path
to file content, newest binding first. -/
def FS : Type := List (List Char × List Char)

/-- Content currently stored at a path, if any. -/
def fsLookup (fs : FS) (p : List Char) : Option (List Char) :=
  match fs with
  | [] => none
  | (q, c) :: rest => if q = p then some c else fsLookup rest p

/-- Result dictionary of `FileManager.read_file` (file_manager.py lines
58-86); possible keys: `content`, `path`, `size`, `lines`, `error`. -/
structure ReadResult where
  content : Option (List Char)
  path : Option (List Char)
  size : Option Nat
  lines : Option Nat
  error : Option (List Char)
deriving DecidableEq, Repr

/-- Result dictionary of `FileManager.write_file` (file_manager.py lines
88-109) and of `_execute_file_operation`; possible keys: `success`,
`path`, `size`, `lines`, `error`. -/
structure OpResult where
  success : Option Bool
  path : Option (List Char)
  size : Option Nat
  lines : Option Nat
  error : Option (List Char)
deriving DecidableEq, Repr

/-- Final path component (after the last `/`), as `pathlib` `name`. -/
def pathName (p : List Char) : List Char :=
  (p.reverse.takeWhile (fun c => c ≠ '/')).reverse

/-- Model of `pathlib` `suffix`: the final dot-extension of the last path
component, empty when there is no dot, the dot is first, or the dot is
last. -/
def pathSuffix (p : List Char) : List Char :=
  let name := pathName p
  let afterDot := name.reverse.takeWhile (fun c => c ≠ '.')
  if afterDot.length = name.length then []
  else if afterDot.length + 1 = name.length then []
  else if afterDot.length = 0 then []
  else '.' :: afterDot.reverse

/-- Extensions accepted by `FileManager.read_file` (file_manager.py line 70). -/
def textExtensions : List (List Char) :=
  [str ".py", str ".js", str ".html", str ".css", str ".json", str ".txt",
   str ".md", str ".yml", str ".yaml", str ".xml", str ".sql", str ".sh",
   str ".bat"]

/-- Model of `FileManager.read_file` (file_manager.py lines 58-86) over the
nominal Content Store: missing path → not-found error; unsupported
extension → unsupported-type error; otherwise the stored content with its
size and line count. -/
def read_file (fs : FS) (file_path : List Char) : ReadResult :=
  match fsLookup fs file_path with
  | none =>
    { content := none, path := none, size := none, lines := none,
      error := some (str "File not found: " ++ file_path) }
  | some content =>
    if (pyLower (pathSuffix file_path)) ∈ textExtensions then
      { content := some content, path := some file_path,
        size := some content.length, lines := some (pySplitlinesCount content),
        error := none }
    else
      { content := none, path := none, size := none, lines := none,
        error := some (str "File type not supported for reading: " ++ pathSuffix file_path) }

/-- Model of `FileManager.write_file` (file_manager.py lines 88-109) over
the nominal Content Store: unconditionally store the content at the path
(parent directories implicit) and report success with size and line
count. -/
def write_file (fs : FS) (file_path content : List Char) : FS × OpResult :=
  ((file_path, content) :: fs,
   { success := some true, path := some file_path,
     size := some content.length, lines := some (pySplitlinesCount content),
     error := none })

/-- Model of `_execute_file_operation` (ai_assistant.py lines 405-453),
threading the Content Store state. -/
def execute_file_operation (fs : FS) (op : FileOperation) : FS × OpResult :=
  match op with
  | .create file_path content => write_file fs file_path content
  | .modifyAppend file_path content =>
    let existing := read_file fs file_path
    let new_content :=
      match existing.content with
      | some ec => ec ++ '\n' :: content
      | none => content
    write_file fs file_path new_content
  | .modifyReplace file_path search replace =>
    let existing := read_file fs file_path
    match existing.content with
    | some ec => write_file fs file_path (pyReplace ec search replace)
    | none =>
      (fs, { success := none, path := none, size := none, lines := none,
             error := some (str "Could not read file for modification: " ++ file_path) })

/-!
Helper lemmas.
-/

theorem infix_of_findSubstr_isSome {sep s : List Char}
    (h : (findSubstr sep s).isSome = true) : sep <:+: s := by
  induction s with
  | nil =>
    by_cases he : sep = ([] : List Char)
    · simp [he]
    · simp [findSubstr, he] at h
  | cons c cs ih =>
    by_cases hp : sep <+: c :: cs
    · exact hp.isInfix
    · simp only [findSubstr, if_neg hp, Option.isSome_map'] at h
      exact List.infix_cons_iff.mpr (Or.inr (ih h))

theorem pySplit_eq_single_of_not_found {sep s : List Char}
    (h : findSubstr sep s = none) : pySplit sep s = [s] := by
  simp [pySplit, pySplitFuel, h]

theorem extractAttr_isSome_of_contains {sep line : List Char} (h : sep <:+: line) :
    (extractAttr sep line).isSome = true := by
  unfold extractAttr
  rcases Option.isSome_iff_exists.mp (pySplit_get?_one_isSome_of_contains h) with ⟨after, hafter⟩
  rw [hafter]
  exact pySplit_get?_zero_isSome _ after

theorem captureUntil_snd_length_le (close : List Char) (ls : List (List Char)) :
    (captureUntil close ls).2.length ≤ ls.length := by
  induction ls with
  | nil => simp [captureUntil]
  | cons a t ih =>
    by_cases h : pyStartswith (pyStrip a) close = true
    · simp [captureUntil, h]
    · simp only [captureUntil, Bool.not_eq_true] at h ⊢
      rw [h]
      simpa using Nat.le_succ_of_le ih

theorem captureUntil_of_no_close (close : List Char) (ls : List (List Char))
    (h : ∀ r ∈ ls, pyStartswith (pyStrip r) close = false) :
    captureUntil close ls = (ls.foldr (fun x acc => x ++ '\n' :: acc) [], []) := by
  induction ls with
  | nil => rfl
  | cons a t ih =>
    have ha := h a (List.mem_cons_self a t)
    have ht : ∀ r ∈ t, pyStartswith (pyStrip r) close = false :=
      fun r hr => h r (List.mem_cons_of_mem a hr)
    simp [captureUntil, ha, ih ht]

theorem pyReplaceFuel_of_no_occurrence {old : List Char} (new : List Char) :
    ∀ (fuel : Nat) (s : List Char), ¬ old <:+: s → pyReplaceFuel old new fuel s = s := by
  intro fuel
  induction fuel with
  | zero => intro s _; rfl
  | succ n ih =>
    intro s hs
    cases s with
    | nil => rfl
    | cons c cs =>
      have hp : ¬ old <+: c :: cs := fun h => hs h.isInfix
      have ht : ¬ old <:+: cs := fun h => hs (List.infix_cons_iff.mpr (Or.inr h))
      simp [pyReplaceFuel, hp, ih cs ht]

theorem pyReplace_of_no_occurrence {s old : List Char} (new : List Char)
    (h : ¬ old <:+: s) : pyReplace s old new = s := by
  have hne : old ≠ [] := by
    intro he
    exact h (he ▸ List.nil_infix)
  simp [pyReplace, hne, pyReplaceFuel_of_no_occurrence new _ s h]

theorem fsLookup_write_self (fs : FS) (p c : List Char) :
    fsLookup ((write_file fs p c).1) p = some c := by
  simp [write_file, fsLookup]

/-!
Claim theorems.
-/

/-- C1: if the stage-1 (processor) result carries the `error` key,
`query_both` returns it paired with the synthetic skipped stage-2 result,
and the result is the same whatever the stage-2 (responder) client would
answer — the responder is never consulted. -/
theorem query_both_short_circuits_on_stage1_error
    (query : List Char) (processor : List Char → ApiResult)
    (responder : List Char → List Char → ApiResult)
    (h : (processor query).error.isSome = true) :
    query_both processor responder query =
      (processor query,
       { content := none, error := some (str "Skipped due to ChatGPT error"),
         timing := none, model := none })
    ∧ ∀ responder' : List Char → List Char → ApiResult,
        query_both processor responder query = query_both processor responder' query := by
  constructor
  · simp [query_both, h]
  · intro responder'
    simp [query_both, h]

/-- Witness for C1 at a concrete uninitialized-processor run. -/
theorem query_both_short_circuit_witness :
    (query_chatgpt_as_processor false (ChatGPTCall.failure (str "boom")) 0).error.isSome = true
    ∧ query_both (fun _ => query_chatgpt_as_processor false (ChatGPTCall.failure (str "boom")) 0)
        (fun _ _ => { content := some (str "gemini answer"), error := none,
                      timing := some 1, model := some (str "gemini-2.5-flash") })
        (str "hi")
      = (query_chatgpt_as_processor false (ChatGPTCall.failure (str "boom")) 0,
         { content := none, error := some (str "Skipped due to ChatGPT error"),
           timing := none, model := none }) :=
  ⟨by decide,
   (query_both_short_circuits_on_stage1_error (str "hi")
      (fun _ => query_chatgpt_as_processor false (ChatGPTCall.failure (str "boom")) 0)
      (fun _ _ => { content := some (str "gemini answer"), error := none,
                    timing := some 1, model := some (str "gemini-2.5-flash") })
      (by decide)).1⟩

/-- C4: the payload handed to stage 2 is the whole stage-1 text when the
marker is absent; when the marker occurs (once, so the split has exactly
two parts) it is everything after the marker, stripped; and on the
spec's concrete example it is exactly the refined prompt. -/
theorem handoff_payload_extraction :
    (∀ t : List Char,
       pyIn (str "---PROMPT FOR GEMINI---") t = false → extractGeminiPrompt t = t)
    ∧ (∀ t a b : List Char,
       pySplit (str "---PROMPT FOR GEMINI---") t = [a, b] →
         extractGeminiPrompt t = pyStrip b)
    ∧ extractGeminiPrompt (str "answer\n---PROMPT FOR GEMINI---\nrefined prompt")
        = str "refined prompt" := by
  refine ⟨?_, ?_, by decide⟩
  · intro t h
    simp [extractGeminiPrompt, h]
  · intro t a b h
    have hfound : (findSubstr (str "---PROMPT FOR GEMINI---") t).isSome = true := by
      cases hf : findSubstr (str "---PROMPT FOR GEMINI---") t with
      | none =>
        rw [pySplit_eq_single_of_not_found hf] at h
        simp at h
      | some i => simp
    have hin : pyIn (str "---PROMPT FOR GEMINI---") t = true :=
      pyIn_iff.mpr (infix_of_findSubstr_isSome hfound)
    simp [extractGeminiPrompt, hin, h, pyLast]

/-- Witness for C4: a marker-free text passes through unchanged, and the
spec's example splits in two parts whose second, stripped, is the payload. -/
theorem handoff_payload_extraction_witness :
    extractGeminiPrompt (str "no marker here") = str "no marker here"
    ∧ extractGeminiPrompt (str "answer\n---PROMPT FOR GEMINI---\nrefined prompt")
        = pyStrip (str "\nrefined prompt") :=
  ⟨handoff_payload_extraction.1 (str "no marker here") (by decide),
   handoff_payload_extraction.2.1 (str "answer\n---PROMPT FOR GEMINI---\nrefined prompt")
     (str "answer\n") (str "\nrefined prompt") (by decide)⟩

/-- C8 counterexample: the error result returned when the OpenAI client is
not initialized (ai_assistant.py lines 95-96) carries no `timing` key,
refuting "every invocation of a stage wrapper includes elapsedSeconds". -/
theorem wrapper_timing_counterexample :
    (query_chatgpt_as_processor false (ChatGPTCall.failure (str "x")) 7).timing = none
    ∧ (query_chatgpt_as_processor false (ChatGPTCall.failure (str "x")) 7).error
        = some (str "OpenAI client not initialized")
    ∧ (query_gemini_with_processed_input false (fun _ => GeminiCall.failure (str "x")) 7
        (str "q") (str "q")).timing = none := by
  refine ⟨rfl, rfl, rfl⟩

/-- C8 amended: when the client is initialized, every wrapper result —
success or error — carries the elapsed time; when the client is not
initialized, the error result carries no timing at all. -/
theorem wrapper_timing_amended (call : ChatGPTCall)
    (callF : List Char → GeminiCall) (elapsed : Nat) (oq pq : List Char) :
    (query_chatgpt_as_processor true call elapsed).timing = some elapsed
    ∧ (query_gemini_with_processed_input true callF elapsed oq pq).timing = some elapsed
    ∧ (query_chatgpt_as_processor false call elapsed).timing = none
    ∧ (query_gemini_with_processed_input false callF elapsed oq pq).timing = none := by
  refine ⟨?_, ?_, ?_, ?_⟩
  · cases call <;> rfl
  · cases h : callF (extractGeminiPrompt pq) <;>
      simp [query_gemini_with_processed_input, h]
  · rfl
  · rfl

/-- C9 counterexample: `query_gemini_only` on a query containing the
marker sends only the post-marker segment to the responder (observed here
with an echoing responder), not the raw query. -/
theorem stage2_only_extraction_counterexample :
    query_gemini_only true (fun prompt => GeminiCall.success (some prompt)) 0
        (str "foo\n---PROMPT FOR GEMINI---\nbar")
      = { content := some (str "bar"), error := none, timing := some 0,
          model := some (str "gemini-2.5-flash") }
    ∧ str "bar" ≠ str "foo\n---PROMPT FOR GEMINI---\nbar" := by
  refine ⟨by decide, by decide⟩

/-- C9 amended: `query_gemini_only` passes the raw query as the processed
input, so the standard delimiter rule is applied to it; the text sent to
the responder equals the raw query exactly when the query does not
contain the marker. -/
theorem stage2_only_applies_delimiter_rule (clientInitialized : Bool)
    (callF : List Char → GeminiCall) (elapsed : Nat) (query : List Char) :
    query_gemini_only clientInitialized callF elapsed query
      = query_gemini_with_processed_input clientInitialized callF elapsed query query
    ∧ (pyIn (str "---PROMPT FOR GEMINI---") query = false →
        extractGeminiPrompt query = query) := by
  refine ⟨rfl, ?_⟩
  intro h
  simp [extractGeminiPrompt, h]

/-- Witness for the amended C9 at a concrete marker-free query. -/
theorem stage2_only_applies_delimiter_rule_witness :
    query_gemini_only true (fun _ => GeminiCall.failure (str "e")) 3 (str "plain query")
      = query_gemini_with_processed_input true (fun _ => GeminiCall.failure (str "e")) 3
          (str "plain query") (str "plain query")
    ∧ extractGeminiPrompt (str "plain query") = str "plain query" :=
  ⟨(stage2_only_applies_delimiter_rule true (fun _ => GeminiCall.failure (str "e")) 3
      (str "plain query")).1,
   (stage2_only_applies_delimiter_rule true (fun _ => GeminiCall.failure (str "e")) 3
      (str "plain query")).2 (by decide)⟩

/-- C5: executing `ModifyReplace` fails exactly when reading the target
fails; on failure the store is untouched and the message identifies the
path; on success the literal all-occurrence replacement is written, and
when the search text does not occur the unchanged content is written and
the operation still succeeds. -/
theorem modifyReplace_spec (fs : FS) (p s r : List Char) :
    ((execute_file_operation fs (FileOperation.modifyReplace p s r)).2.error.isSome = true
       ↔ (read_file fs p).error.isSome = true)
    ∧ ((read_file fs p).error.isSome = true →
         execute_file_operation fs (FileOperation.modifyReplace p s r)
           = (fs, { success := none, path := none, size := none, lines := none,
                    error := some (str "Could not read file for modification: " ++ p) }))
    ∧ (∀ ec, (read_file fs p).content = some ec →
         execute_file_operation fs (FileOperation.modifyReplace p s r)
           = write_file fs p (pyReplace ec s r)
         ∧ (execute_file_operation fs (FileOperation.modifyReplace p s r)).2.success
             = some true)
    ∧ (∀ ec, (read_file fs p).content = some ec → ¬ s <:+: ec →
         execute_file_operation fs (FileOperation.modifyReplace p s r)
           = write_file fs p ec
         ∧ fsLookup (execute_file_operation fs
             (FileOperation.modifyReplace p s r)).1 p = some ec) := by
  have hex : (read_file fs p).error.isSome = (read_file fs p).content.isNone := by
    unfold read_file
    cases fsLookup fs p with
    | none => simp
    | some content =>
      by_cases hsuf : pyLower (pathSuffix p) ∈ textExtensions <;> simp [hsuf]
  refine ⟨?_, ?_, ?_, ?_⟩
  · cases hc : (read_file fs p).content with
    | none =>
      simp only [execute_file_operation, hc, hex]
      simp
    | some ec =>
      simp only [execute_file_operation, hc, hex]
      simp [write_file]
  · intro herr
    have hc : (read_file fs p).content = none := by
      rw [hex] at herr
      exact Option.isNone_iff_eq_none.mp herr
    simp [execute_file_operation, hc]
  · intro ec hc
    refine ⟨by simp [execute_file_operation, hc], ?_⟩
    simp [execute_file_operation, hc, write_file]
  · intro ec hc hno
    have hrepl : pyReplace ec s r = ec := pyReplace_of_no_occurrence r hno
    refine ⟨?_, ?_⟩
    · simp [execute_file_operation, hc, hrepl]
    · simp [execute_file_operation, hc, hrepl, write_file, fsLookup]

/-- Witness for C5: a missing file fails without writing, and a
no-match replace on an existing file succeeds leaving content unchanged. -/
theorem modifyReplace_spec_witness :
    ((read_file [(str "notes.txt", str "hello world")] (str "missing.txt")).error.isSome = true)
    ∧ execute_file_operation [(str "notes.txt", str "hello world")]
        (FileOperation.modifyReplace (str "missing.txt") (str "zzz") (str "yyy"))
      = ([(str "notes.txt", str "hello world")],
         { success := none, path := none, size := none, lines := none,
           error := some (str "Could not read file for modification: " ++ str "missing.txt") })
    ∧ fsLookup (execute_file_operation [(str "notes.txt", str "hello world")]
        (FileOperation.modifyReplace (str "notes.txt") (str "zzz") (str "yyy"))).1
        (str "notes.txt") = some (str "hello world") :=
  ⟨by decide,
   (modifyReplace_spec [(str "notes.txt", str "hello world")] (str "missing.txt")
      (str "zzz") (str "yyy")).2.1 (by decide),
   ((modifyReplace_spec [(str "notes.txt", str "hello world")] (str "notes.txt")
      (str "zzz") (str "yyy")).2.2.2 (str "hello world") (by decide) (by decide)).2⟩

/-- C6: executing `ModifyAppend` writes exactly the payload when the read
fails (missing or unreadable file), with no leading separator; otherwise
it writes the existing content, one newline, then the payload. -/
theorem modifyAppend_spec (fs : FS) (p c : List Char) :
    ((read_file fs p).content = none →
       execute_file_operation fs (FileOperation.modifyAppend p c) = write_file fs p c
       ∧ fsLookup (execute_file_operation fs (FileOperation.modifyAppend p c)).1 p = some c)
    ∧ (∀ ec, (read_file fs p).content = some ec →
       execute_file_operation fs (FileOperation.modifyAppend p c)
         = write_file fs p (ec ++ '\n' :: c)
       ∧ fsLookup (execute_file_operation fs (FileOperation.modifyAppend p c)).1 p
           = some (ec ++ '\n' :: c)) := by
  constructor
  · intro hc
    refine ⟨by simp [execute_file_operation, hc], ?_⟩
    simp [execute_file_operation, hc, write_file, fsLookup]
  · intro ec hc
    refine ⟨by simp [execute_file_operation, hc], ?_⟩
    simp [execute_file_operation, hc, write_file, fsLookup]

/-- Witness for C6: appending to a missing `new.txt` yields exactly the
payload, and appending to an existing file inserts one newline. -/
theorem modifyAppend_spec_witness :
    ((read_file ([] : FS) (str "new.txt")).content = none)
    ∧ fsLookup (execute_file_operation ([] : FS)
        (FileOperation.modifyAppend (str "new.txt") (str "line1"))).1 (str "new.txt")
      = some (str "line1")
    ∧ fsLookup (execute_file_operation [(str "a.txt", str "old")]
        (FileOperation.modifyAppend (str "a.txt") (str "line1"))).1 (str "a.txt")
      = some (str "old" ++ '\n' :: str "line1") :=
  ⟨by decide,
   ((modifyAppend_spec ([] : FS) (str "new.txt") (str "line1")).1 (by decide)).2,
   ((modifyAppend_spec [(str "a.txt", str "old")] (str "a.txt") (str "line1")).2
      (str "old") (by decide)).2⟩

/-- C7: `Create` overwrites unconditionally — after executing it the
stored content at the path is the operation's content whatever was there
before — and executing the same `Create` twice leaves the store with the
same observable contents (at every path) as executing it once. -/
theorem create_overwrite_idempotent (fs : FS) (p c : List Char) :
    fsLookup (execute_file_operation fs (FileOperation.create p c)).1 p = some c
    ∧ ∀ q, fsLookup (execute_file_operation
          (execute_file_operation fs (FileOperation.create p c)).1
          (FileOperation.create p c)).1 q
        = fsLookup (execute_file_operation fs (FileOperation.create p c)).1 q := by
  constructor
  · simp [execute_file_operation, write_file, fsLookup]
  · intro q
    by_cases h : p = q <;> simp [execute_file_operation, write_file, fsLookup, h]

/-- C2 counterexample: an unterminated CREATE block is not dropped — the
parser emits one operation capturing all remaining lines, refuting "an
unterminated CREATE block yields zero operations". -/
theorem unterminated_create_counterexample :
    parse_file_operations (str "<CREATE file=\"a.txt\">\nhello")
      = some [FileOperation.create (str "a.txt") (str "hello")]
    ∧ some [FileOperation.create (str "a.txt") (str "hello")]
        ≠ some ([] : List FileOperation) := by
  refine ⟨by decide, by decide⟩

/-- C2 amended: when a CREATE opening tag is seen and no later line's
trimmed content begins with the closing tag, the parser emits exactly one
operation for the block, whose content is all remaining lines (joined
with newlines, trailing newlines stripped) — truncated blocks are
captured to end-of-text, not dropped. -/
theorem unterminated_create_captures_rest
    (l : List Char) (rest : List (List Char)) (p : List Char)
    (hopen : pyStartswith (pyStrip l) (str "<CREATE file=\"") = true)
    (hpath : extractAttr (str "file=\"") (pyStrip l) = some p)
    (hnoclose : ∀ r ∈ rest, pyStartswith (pyStrip r) (str "</CREATE>") = false) :
    parseLines (l :: rest)
      = some [FileOperation.create p
          (rstripNewlines (rest.foldr (fun x acc => x ++ '\n' :: acc) []))] := by
  have hcap := captureUntil_of_no_close (str "</CREATE>") rest hnoclose
  simp [parseLines, parseLinesFuel, hopen, hpath, hcap]

/-- Witness for the amended C2 on a concrete two-line unterminated block. -/
theorem unterminated_create_captures_rest_witness :
    pyStartswith (pyStrip (str "<CREATE file=\"a.txt\">")) (str "<CREATE file=\"") = true
    ∧ extractAttr (str "file=\"") (pyStrip (str "<CREATE file=\"a.txt\">"))
        = some (str "a.txt")
    ∧ parseLines [str "<CREATE file=\"a.txt\">", str "hello"]
        = some [FileOperation.create (str "a.txt")
            (rstripNewlines (List.foldr (fun x acc => x ++ '\n' :: acc) []
              [str "hello"]))] :=
  ⟨by decide, by decide,
   unterminated_create_captures_rest (str "<CREATE file=\"a.txt\">") [str "hello"]
     (str "a.txt") (by decide) (by decide) (by decide)⟩

/-- C3 counterexample: a CREATE tag and a MODIFY tag with an empty `file`
attribute are not dropped — each is emitted as an operation whose path is
the empty string, refuting "no operation with an empty path ever
appears". -/
theorem empty_path_emitted_counterexample :
    parse_file_operations (str "<CREATE file=\"\">\n</CREATE>")
      = some [FileOperation.create ([] : List Char) ([] : List Char)]
    ∧ parse_file_operations (str "<MODIFY file=\"\">\n</MODIFY>")
      = some [FileOperation.modifyAppend ([] : List Char) ([] : List Char)] := by
  refine ⟨by decide, by decide⟩

/-- C3 amended: the parser emits the extracted `file` attribute value as
the operation's path verbatim, with no non-emptiness guard, on both
emission paths: a recognized CREATE tag line whose attribute extraction
yields `p` — including the empty `p` — emits a Create with path `p`
(lines 344-358), and a recognized MODIFY tag line whose `split('"')[1]`
extraction yields `p` — including the empty `p` — and which carries no
explicit operation attribute (so it defaults to append) emits a
ModifyAppend with path `p` (lines 361-391). -/
theorem tag_path_emitted_verbatim
    (fuel : Nat) (l : List Char) (rest : List (List Char)) (p : List Char) :
    (pyStartswith (pyStrip l) (str "<CREATE file=\"") = true →
     extractAttr (str "file=\"") (pyStrip l) = some p →
     parseLinesFuel (fuel + 1) (l :: rest)
       = (parseLinesFuel fuel ((captureUntil (str "</CREATE>") rest).2.drop 1)).map
           (fun ops => FileOperation.create p
               (rstripNewlines (captureUntil (str "</CREATE>") rest).1) :: ops))
    ∧ (pyStartswith (pyStrip l) (str "<CREATE file=\"") = false →
       pyStartswith (pyStrip l) (str "<MODIFY file=\"") = true →
       (pySplit (str "\"") (pyStrip l)).get? 1 = some p →
       pyIn (str "operation=\"") (pyStrip l) = false →
       parseLinesFuel (fuel + 1) (l :: rest)
         = (parseLinesFuel fuel ((captureUntil (str "</MODIFY>") rest).2.drop 1)).map
             (fun ops => FileOperation.modifyAppend p
                 (rstripNewlines (captureUntil (str "</MODIFY>") rest).1) :: ops)) := by
  constructor
  · intro hopen hpath
    simp only [parseLinesFuel, hopen, if_true, hpath]
    cases h : parseLinesFuel fuel ((captureUntil (str "</CREATE>") rest).2.drop 1) <;>
      simp [h]
  · intro hnc hm hfp hnoop
    rw [List.get?_eq_getElem?] at hfp
    have hse : (if pyIn (str "search=\"") (pyStrip l) = true then
        extractAttr (str "search=\"") (pyStrip l)
        else some ([] : List Char)).isSome = true := by
      by_cases hio : pyIn (str "search=\"") (pyStrip l) = true
      · simpa [hio] using extractAttr_isSome_of_contains (pyIn_iff.mp hio)
      · simp [hio]
    have hwi : (if pyIn (str "with=\"") (pyStrip l) = true then
        extractAttr (str "with=\"") (pyStrip l)
        else some ([] : List Char)).isSome = true := by
      by_cases hio : pyIn (str "with=\"") (pyStrip l) = true
      · simpa [hio] using extractAttr_isSome_of_contains (pyIn_iff.mp hio)
      · simp [hio]
    obtain ⟨st, hst⟩ := Option.isSome_iff_exists.mp hse
    obtain ⟨rt, hrt⟩ := Option.isSome_iff_exists.mp hwi
    simp only [parseLinesFuel, hnc, hm, if_true, Bool.false_eq_true, if_false,
      hfp, hnoop, hst, hrt]
    cases h : parseLinesFuel fuel ((captureUntil (str "</MODIFY>") rest).2.drop 1) <;>
      simp [h, hfp]

/-- Witness for the amended C3: the empty extracted path is emitted, both
for a CREATE tag and for a MODIFY tag. -/
theorem tag_path_emitted_verbatim_witness :
    (parseLinesFuel 2 [str "<CREATE file=\"\">", str "</CREATE>"]
       = (parseLinesFuel 1 ((captureUntil (str "</CREATE>") [str "</CREATE>"]).2.drop 1)).map
           (fun ops => FileOperation.create ([] : List Char)
               (rstripNewlines (captureUntil (str "</CREATE>") [str "</CREATE>"]).1) :: ops))
    ∧ (parseLinesFuel 2 [str "<MODIFY file=\"\">", str "</MODIFY>"]
       = (parseLinesFuel 1 ((captureUntil (str "</MODIFY>") [str "</MODIFY>"]).2.drop 1)).map
           (fun ops => FileOperation.modifyAppend ([] : List Char)
               (rstripNewlines (captureUntil (str "</MODIFY>") [str "</MODIFY>"]).1) :: ops)) :=
  ⟨(tag_path_emitted_verbatim 1 (str "<CREATE file=\"\">") [str "</CREATE>"]
      ([] : List Char)).1 (by decide) (by decide),
   (tag_path_emitted_verbatim 1 (str "<MODIFY file=\"\">") [str "</MODIFY>"]
      ([] : List Char)).2 (by decide) (by decide) (by decide) (by decide)⟩

theorem parseLinesFuel_isSome :
    ∀ (fuel : Nat) (ls : List (List Char)), ls.length < fuel →
      (parseLinesFuel fuel ls).isSome = true := by
  intro fuel
  induction fuel with
  | zero => intro ls h; exact absurd h (Nat.not_lt_zero _)
  | succ f ih =>
    intro ls h
    cases ls with
    | nil => rfl
    | cons l rest =>
      have hrest : rest.length < f := Nat.lt_of_succ_lt_succ (by simpa using h)
      by_cases hc : pyStartswith (pyStrip l) (str "<CREATE file=\"") = true
      · have hinf : (str "file=\"") <:+: pyStrip l :=
          List.IsInfix.trans (by decide) (pyStartswith_iff.mp hc).isInfix
        obtain ⟨fp, hfp⟩ := Option.isSome_iff_exists.mp (extractAttr_isSome_of_contains hinf)
        have hlen : ((captureUntil (str "</CREATE>") rest).2.drop 1).length < f := by
          have h1 := captureUntil_snd_length_le (str "</CREATE>") rest
          have h2 : ((captureUntil (str "</CREATE>") rest).2.drop 1).length
              ≤ (captureUntil (str "</CREATE>") rest).2.length := by
            rw [List.length_drop]; exact Nat.sub_le _ _
          exact Nat.lt_of_le_of_lt (Nat.le_trans h2 h1) hrest
        obtain ⟨ops, hops⟩ := Option.isSome_iff_exists.mp (ih _ hlen)
        rw [List.drop_one] at hops
        simp [parseLinesFuel, hc, hfp, hops]
      · by_cases hm : pyStartswith (pyStrip l) (str "<MODIFY file=\"") = true
        · have hq : (str "\"") <:+: pyStrip l :=
            List.IsInfix.trans (by decide) (pyStartswith_iff.mp hm).isInfix
          obtain ⟨fp, hfp⟩ :=
            Option.isSome_iff_exists.mp (pySplit_get?_one_isSome_of_contains hq)
          rw [List.get?_eq_getElem?] at hfp
          have hop : (if pyIn (str "operation=\"") (pyStrip l) = true then
              extractAttr (str "operation=\"") (pyStrip l)
              else some (str "append")).isSome = true := by
            by_cases hio : pyIn (str "operation=\"") (pyStrip l) = true
            · simpa [hio] using extractAttr_isSome_of_contains (pyIn_iff.mp hio)
            · simp [hio]
          have hse : (if pyIn (str "search=\"") (pyStrip l) = true then
              extractAttr (str "search=\"") (pyStrip l)
              else some ([] : List Char)).isSome = true := by
            by_cases hio : pyIn (str "search=\"") (pyStrip l) = true
            · simpa [hio] using extractAttr_isSome_of_contains (pyIn_iff.mp hio)
            · simp [hio]
          have hwi : (if pyIn (str "with=\"") (pyStrip l) = true then
              extractAttr (str "with=\"") (pyStrip l)
              else some ([] : List Char)).isSome = true := by
            by_cases hio : pyIn (str "with=\"") (pyStrip l) = true
            · simpa [hio] using extractAttr_isSome_of_contains (pyIn_iff.mp hio)
            · simp [hio]
          obtain ⟨ot, hot⟩ := Option.isSome_iff_exists.mp hop
          obtain ⟨st, hst⟩ := Option.isSome_iff_exists.mp hse
          obtain ⟨rt, hrt⟩ := Option.isSome_iff_exists.mp hwi
          by_cases hap : ot = str "append"
          · have hlen : ((captureUntil (str "</MODIFY>") rest).2.drop 1).length < f := by
              have h1 := captureUntil_snd_length_le (str "</MODIFY>") rest
              have h2 : ((captureUntil (str "</MODIFY>") rest).2.drop 1).length
                  ≤ (captureUntil (str "</MODIFY>") rest).2.length := by
                rw [List.length_drop]; exact Nat.sub_le _ _
              exact Nat.lt_of_le_of_lt (Nat.le_trans h2 h1) hrest
            obtain ⟨ops, hops⟩ := Option.isSome_iff_exists.mp (ih _ hlen)
            rw [List.drop_one] at hops
            simp [parseLinesFuel, hc, hm, hfp, hot, hst, hrt, hap, hops]
          · by_cases hrp : ot = str "replace"
            · obtain ⟨ops, hops⟩ := Option.isSome_iff_exists.mp (ih rest hrest)
              have hne : (str "replace" = str "append") = False :=
                eq_false (by decide)
              simp [parseLinesFuel, hc, hm, hfp, hot, hst, hrt, hap, hrp, hops, hne]
            · have := ih rest hrest
              simp [parseLinesFuel, hc, hm, hfp, hot, hst, hrt, hap, hrp, this]
        · have := ih rest hrest
          simp [parseLinesFuel, hc, hm, this]

/-- C10: the parser is total — for every input text it returns a (possibly
empty) operation list; no guarded index access ever fails, so the model
never reaches its `none` (raised `IndexError`) outcome. -/
theorem parse_file_operations_total (content : List Char) :
    (parse_file_operations content).isSome = true :=
  parseLinesFuel_isSome _ _ (Nat.lt_succ_self _)
